import Mathlib

/-!
Shallow embedding of the fix-orchestration core of the SonarQube code-janitor
backend (`app/fixer_service.py`, `app/sonarqube_client.py`, `app/ai_client.py`,
`app/api.py`, `app/models.py`, `app/schemas.py`, alembic migration 002).

The Issue Store and Event Log are modelled as in-memory lists; each gateway
(source control, analyzer, patch generator) is modelled as an injectable
function returning `Except` to represent a raised exception, mirroring the
narrow collaborator interfaces the service calls.
-/

namespace Janitor

/-- Enum `IssueStatus` from `app/models.py`. -/
inductive IssueStatus where
  | NEW
  | FIXING
  | PR_OPEN
  | CI_PASSED
  | CI_FAILED
  | CLOSED
deriving DecidableEq, Repr

/-- Enum `EventType` from `app/models.py`. -/
inductive EventType where
  | ISSUE_DETECTED
  | AI_CALLED
  | PR_CREATED
  | CI_PASSED
  | CI_FAILED
  | STATUS_UPDATED
  | ERROR
deriving DecidableEq, Repr

/-- String rendering of an `IssueStatus` value, as interpolated into the
rejection message `"Issue already in status ..."` in `attempt_fix`. -/
def statusString : IssueStatus → String
  | .NEW => "NEW"
  | .FIXING => "FIXING"
  | .PR_OPEN => "PR_OPEN"
  | .CI_PASSED => "CI_PASSED"
  | .CI_FAILED => "CI_FAILED"
  | .CLOSED => "CLOSED"

/-- Row of the `issues` database table: the columns of `app/models.py`
plus `pr_merged`, which alembic migration 002 adds to the table only
(`0` = not merged — the server default every inserted row receives,
`1` = merged, `-1` = unknown).  `models.py` declares no `pr_merged`
attribute on the ORM class, so code that touches `Issue.pr_merged` raises
`AttributeError`; the two such access sites (the reconciliation-sweep
query and the metrics merged-PR count) are modelled as raising below, and
no other code path reads or writes the field.  The opaque UUID surrogate
id is modelled as a natural number. -/
structure Issue where
  id : Nat
  sonarqube_issue_key : String
  project_key : String
  rule : String
  severity : String
  component : String
  line : Option Nat
  message : String
  status : IssueStatus
  pr_url : Option String
  pr_branch : Option String
  pr_merged : Int
deriving DecidableEq, Repr

/-- Row of the `events` table (`app/models.py`). -/
structure Event where
  issue_id : Nat
  event_type : EventType
  message : String
deriving DecidableEq, Repr

/-- The database: Issue Store plus append-only Event Log.  `nextId` supplies
fresh surrogate ids for newly inserted issues. -/
structure DB where
  issues : List Issue
  events : List Event
  nextId : Nat
deriving DecidableEq, Repr

/-- Append an event row (`db.add(Event(...))`). -/
def DB.addEvent (db : DB) (issue_id : Nat) (t : EventType) (msg : String) : DB :=
  { db with events := db.events ++ [⟨issue_id, t, msg⟩] }

/-- Mutate the first issue row matching a predicate, leaving every other row
unchanged — the effect of assigning to the fields of one ORM row fetched by
`query(...).first()` (primary keys are unique). -/
def replaceFirst (p : Issue → Bool) (f : Issue → Issue) : List Issue → List Issue
  | [] => []
  | i :: rest => if p i then f i :: rest else i :: replaceFirst p f rest

/-- Update the issue row with the given id. -/
def DB.updateIssue (db : DB) (issue_id : Nat) (f : Issue → Issue) : DB :=
  { db with issues := replaceFirst (fun i => i.id == issue_id) f db.issues }

/-- Python `str.split(sep)` for a non-empty separator, scanning left to
right over the character list; `fuel` bounds the recursion structurally
(callers pass the input length plus one, which the scan never exhausts). -/
def splitOnCharsAux (sep : List Char) : Nat → List Char → List Char → List (List Char)
  | 0, _, acc => [acc.reverse]
  | _ + 1, [], acc => [acc.reverse]
  | fuel + 1, c :: cs, acc =>
    if sep.isPrefixOf (c :: cs) then
      acc.reverse :: splitOnCharsAux sep fuel ((c :: cs).drop sep.length) []
    else
      splitOnCharsAux sep fuel cs (c :: acc)

/-- Python `s.split(sep)` (non-empty `sep`). -/
def splitOnStr (s sep : String) : List String :=
  (splitOnCharsAux sep.data (s.data.length + 1) s.data []).map String.mk

/-- Python `s.strip()`: remove whitespace from both ends. -/
def trimStr (s : String) : String :=
  String.mk ((s.data.dropWhile Char.isWhitespace).reverse.dropWhile
    Char.isWhitespace).reverse

/-- Python `s.startswith(pre)`. -/
def startsWithStr (s pre : String) : Bool :=
  pre.data.isPrefixOf s.data

/-- `SonarQubeClient.parse_component_path`: strip the colon-delimited project
prefix (`component.split(":", 1)[1]`) when a colon is present. -/
def parse_component_path (component : String) : String :=
  let parts := splitOnStr component ":"
  if parts.length ≥ 2 then String.intercalate ":" (parts.drop 1) else component

/-- One raw analyzer record, as consumed from the JSON payload of
`SonarQubeClient.get_issues` (fields `key`, `project`, `rule`, `severity`,
`component`, `line`, `message`). -/
structure SonarRecord where
  key : String
  project : String
  rule : String
  severity : String
  component : String
  line : Option Nat
  message : String
deriving DecidableEq, Repr

/-- The issue row inserted by `sync_sonarqube_issues` for a fresh record. -/
def recordToIssue (r : SonarRecord) (freshId : Nat) : Issue :=
  { id := freshId
    sonarqube_issue_key := r.key
    project_key := r.project
    rule := r.rule
    severity := r.severity
    component := parse_component_path r.component
    line := r.line
    message := r.message
    status := IssueStatus.NEW
    pr_url := none
    pr_branch := none
    pr_merged := 0 }

/-- Insert a fresh issue for a record and append its detection event. -/
def insertRecord (db : DB) (r : SonarRecord) : DB :=
  { issues := db.issues ++ [recordToIssue r db.nextId]
    events := db.events ++
      [⟨db.nextId, EventType.ISSUE_DETECTED,
        "Issue detected by SonarQube: " ++ r.message⟩]
    nextId := db.nextId + 1 }

/-- Does the store already track a natural key? (`db.query(Issue).filter(
Issue.sonarqube_issue_key == issue_key).first()` being non-empty). -/
def DB.tracks (db : DB) (key : String) : Bool :=
  db.issues.any (fun i => i.sonarqube_issue_key == key)

/-- Loop body of `FixerService.sync_sonarqube_issues`: skip records whose
natural key is already tracked, insert the rest, counting insertions. -/
def syncAux : List SonarRecord → DB → Nat → Nat × DB
  | [], db, n => (n, db)
  | r :: rest, db, n =>
    if db.tracks r.key then syncAux rest db n
    else syncAux rest (insertRecord db r) (n + 1)

/-- `FixerService.sync_sonarqube_issues` applied to the list of records the
analyzer returned: returns the count of newly created issues and the new
database state. -/
def sync_sonarqube_issues (records : List SonarRecord) (db : DB) : Nat × DB :=
  syncAux records db 0

/-- The single page fetched by `SonarQubeClient.get_issues(p=page, ps=ps)`
from a server holding the full list of matching findings: pages are
1-indexed slices of size `ps`. -/
def get_issues_page (allRecords : List SonarRecord) (page ps : Nat) :
    List SonarRecord :=
  (allRecords.drop ((page - 1) * ps)).take ps

/-- The whole sync call as issued by `sync_sonarqube_issues`: one
`get_issues` request with default page 1 and `page_size=500`, then the
insert loop over the returned records. -/
def sync_from_server (allRecords : List SonarRecord) (db : DB) : Nat × DB :=
  sync_sonarqube_issues (get_issues_page allRecords 1 500) db

/-- Result dictionary of `AIClient.generate_fix`
(`success` / `fixed_content` / `explanation`). -/
structure AIResult where
  success : Bool
  fixed_content : String
  explanation : String
deriving DecidableEq, Repr

/-- Language identifiers recognised on the first line of a code block by
`AIClient._parse_ai_response`. -/
def languageIds : List String :=
  ["python", "java", "javascript", "typescript", "go", "cpp", "c"]

/-- `AIClient._parse_ai_response`: extract the fixed file content and the
explanation from the raw model response, falling back to the original file
content (and a stock explanation) when no code block can be extracted. -/
def parse_ai_response (response original_content : String) : String × String :=
  let parts := splitOnStr response "```"
  if parts.length ≥ 3 then
    let code_block := parts.getD 1 ""
    let lines := splitOnStr code_block "\n"
    let l0 := trimStr (lines.getD 0 "")
    -- the first line is dropped when it is a bare language identifier
    let code_block :=
      if l0 ≠ "" ∧ ¬ startsWithStr l0 "#" ∧ ¬ startsWithStr l0 "//" ∧ l0 ∈ languageIds
      then String.intercalate "\n" (lines.drop 1)
      else code_block
    let fixed_content := trimStr code_block
    let remaining := parts.getD 2 ""
    let expParts := splitOnStr remaining "Explanation:"
    let explanation :=
      if expParts.length ≥ 2 then
        trimStr (String.intercalate "Explanation:" (expParts.drop 1))
      else if trimStr remaining ≠ "" then trimStr remaining
      else "AI provided a fix."
    (fixed_content, explanation)
  else
    (original_content, "AI provided a fix.")

/-- `AIClient.generate_fix`.  The chat-completion call is injected as
`apiOutcome`: `.error e` models a raised exception, `.ok content` the
returned message content (`""` covering the falsy empty/None content). -/
def generate_fix (apiOutcome : Except String String) (file_content : String) :
    AIResult :=
  match apiOutcome with
  | .error e => ⟨false, "", "Error calling AI: " ++ e⟩
  | .ok content =>
    if content = "" then ⟨false, "", "AI returned empty response"⟩
    else
      let p := parse_ai_response content file_content
      ⟨true, p.1, p.2⟩

/-- Injectable collaborator behaviour for one fix attempt: the GitHub
gateway calls made by `attempt_fix` (each may raise, modelled as `.error`)
and the outcome of the underlying model call inside the patch generator. -/
structure FixEnv where
  get_file_content : String → Except String (String × String)
  aiResponse : Except String String
  create_branch : String → Except String String
  update_file : String → String → String → String → String → Except String String
  create_pull_request : String → String → String → Except String String

/-- Result dictionary of `FixerService.attempt_fix`. -/
structure FixResult where
  success : Bool
  message : String
  pr_url : Option String
deriving DecidableEq, Repr

/-- Rendering of `issue.line or 'N/A'` inside the PR body (`0` is falsy in
Python, so it also renders as `N/A`). -/
def lineStr : Option Nat → String
  | some n => if n == 0 then "N/A" else toString n
  | none => "N/A"

/-- PR title built by `attempt_fix`. -/
def prTitle (issue : Issue) : String :=
  "[AI Fix] " ++ issue.rule ++ ": " ++ issue.component

/-- PR body built by `attempt_fix`. -/
def prBody (issue : Issue) (explanation : String) : String :=
  "## AI-Generated Fix for SonarQube Issue\n\n" ++
  "**Issue Key:** " ++ issue.sonarqube_issue_key ++ "\n" ++
  "**Rule:** " ++ issue.rule ++ "\n" ++
  "**Severity:** " ++ issue.severity ++ "\n" ++
  "**File:** " ++ issue.component ++ "\n" ++
  "**Line:** " ++ lineStr issue.line ++ "\n\n" ++
  "### Issue Description\n" ++ issue.message ++ "\n\n" ++
  "### AI Explanation\n" ++ explanation ++ "\n\n" ++
  "---\n" ++
  "*This pull request was automatically generated by the SonarQube Code Janitor.*\n"

/-- Commit message built by `attempt_fix`. -/
def commitMessage (issue : Issue) (explanation : String) : String :=
  "Fix SonarQube issue " ++ issue.sonarqube_issue_key ++ "\n\n" ++ explanation

/-- The revert-and-record pattern shared by every failure branch of
`attempt_fix`: set the issue status back to `NEW` and append an `ERROR`
event carrying the failure message. -/
def revertToNew (db : DB) (issue_id : Nat) (msg : String) : DB :=
  (db.updateIssue issue_id fun i => { i with status := IssueStatus.NEW
      }).addEvent issue_id EventType.ERROR msg

/-- `FixerService.attempt_fix`: the core fix state machine.  Gateway and
model behaviour is injected through `env`; the returned pair is the result
dictionary and the database state after the final commit. -/
def attempt_fix (env : FixEnv) (issue_id : Nat) (db : DB) : FixResult × DB :=
  match db.issues.find? (fun i => i.id == issue_id) with
  | none => (⟨false, "Issue not found", none⟩, db)
  | some issue =>
    if issue.status ≠ IssueStatus.NEW then
      (⟨false, "Issue already in status " ++ statusString issue.status, none⟩, db)
    else
      -- step 1: transition to FIXING, record the status change
      let db1 := (db.updateIssue issue.id fun i => { i with status := IssueStatus.FIXING
          }).addEvent issue.id EventType.STATUS_UPDATED "Status changed to FIXING"
      -- step 2: fetch file content and version token
      match env.get_file_content issue.component with
      | .error e =>
        let msg := "Failed to fetch file from GitHub: " ++ e
        (⟨false, msg, none⟩, revertToNew db1 issue.id msg)
      | .ok (file_content, file_sha) =>
        -- step 3: record the model invocation, then generate the fix
        let db2 := db1.addEvent issue.id EventType.AI_CALLED "Requesting AI to generate fix"
        let ai := generate_fix env.aiResponse file_content
        if ¬ ai.success then
          let msg := "AI failed to generate fix: " ++ ai.explanation
          (⟨false, msg, none⟩, revertToNew db2 issue.id msg)
        else
          -- step 4: branch and commit
          let branch_name := "ai-fix/" ++ issue.sonarqube_issue_key
          match env.create_branch branch_name with
          | .error e =>
            let msg := "Failed to create branch or commit: " ++ e
            (⟨false, msg, none⟩, revertToNew db2 issue.id msg)
          | .ok _ =>
            match env.update_file issue.component ai.fixed_content
                (commitMessage issue ai.explanation) branch_name file_sha with
            | .error e =>
              let msg := "Failed to create branch or commit: " ++ e
              (⟨false, msg, none⟩, revertToNew db2 issue.id msg)
            | .ok _ =>
              -- step 5: open the pull request
              match env.create_pull_request (prTitle issue)
                  (prBody issue ai.explanation) branch_name with
              | .error e =>
                let msg := "Failed to create pull request: " ++ e
                (⟨false, msg, none⟩, revertToNew db2 issue.id msg)
              | .ok pr_url =>
                let db3 := db2.updateIssue issue.id fun i =>
                  { i with status := IssueStatus.PR_OPEN
                           pr_url := some pr_url
                           pr_branch := some branch_name }
                (⟨true, "Fix applied and PR created: " ++ pr_url, some pr_url⟩,
                 db3.addEvent issue.id EventType.PR_CREATED
                   ("Pull request created: " ++ pr_url))

/-- PR status dictionary returned by `GitHubClient.get_pr_status`
(the sweep only consults `merged`). -/
structure PRInfo where
  state : String
  merged : Bool
  ci_state : String
deriving DecidableEq, Repr

/-- The `try` block of `FixerService.update_pr_merge_status`.  Its first
statement builds the row query `db.query(Issue).filter(Issue.pr_url
.isnot(None), Issue.pr_merged != 1)`; the second filter expression looks
up the class attribute `Issue.pr_merged`, which the ORM class in
`models.py` does not declare (only the database table has the column, via
migration 002), so the lookup raises `AttributeError` before any row is
fetched, any gateway call is made or any row is mutated.  The whole block
therefore always finishes with that exception. -/
def sweepTryBlock (_gw : String → Except String PRInfo) (_db : DB) :
    Except String (Nat × DB) :=
  Except.error "AttributeError: type object Issue has no attribute pr_merged"

/-- `FixerService.update_pr_merge_status`: the `try` block raises on the
unmapped `Issue.pr_merged` (see `sweepTryBlock`), so control always
reaches the function-level handler, which logs the error, rolls the
session back and returns 0 — the store is left untouched. -/
def update_pr_merge_status (gw : String → Except String PRInfo) (db : DB) :
    Nat × DB :=
  match sweepTryBlock gw db with
  | Except.ok r => r
  | Except.error _ => (0, db)

/-- Count of issues in a given status (`db.query(Issue).filter(Issue.status
== s).count()` in `get_metrics_summary`). -/
def statusCount (db : DB) (s : IssueStatus) : Nat :=
  (db.issues.filter fun i => i.status == s).length

/-- `total_prs_created` in `get_metrics_summary`: issues with a non-null
`pr_url`. -/
def total_prs_created_count (db : DB) : Nat :=
  (db.issues.filter fun i => i.pr_url.isSome).length

/-- The merged-PR count expression at `app/api.py` line 154:
`db.query(Issue).filter(Issue.pr_merged == 1).count()`.  The filter looks
up the class attribute `Issue.pr_merged`, which `models.py` does not map
(only the database table has the column, via migration 002), so the
expression raises `AttributeError` instead of returning a count. -/
def merged_prs_query (_db : DB) : Except String Nat :=
  Except.error "AttributeError: type object Issue has no attribute pr_merged"

/-- Python `round(x, 2)`, modelled over the rationals: round to the
nearest multiple of one hundredth (exact ties, on which Python rounds to
even, do not arise in any fact proved below). -/
def roundTo2 (q : ℚ) : ℚ :=
  ((⌊q * 100 + 1 / 2⌋ : ℤ) : ℚ) / 100

/-- The `success_rate` expression of `get_metrics_summary`:
`round(merged_prs / total_prs_created * 100, 2)` when any PR was created,
`0.0` otherwise. -/
def success_rate_calc (merged_prs total_prs_created : Nat) : ℚ :=
  if total_prs_created > 0 then
    roundTo2 ((merged_prs : ℚ) / (total_prs_created : ℚ) * 100)
  else 0

/-- Response schema `MetricsSummary` from `app/schemas.py`: every field is
declared without a default, hence required at construction. -/
structure MetricsSummary where
  total_issues : Nat
  new_issues : Nat
  fixing_issues : Nat
  pr_open_issues : Nat
  ci_passed_issues : Nat
  ci_failed_issues : Nat
  closed_issues : Nat
  total_prs_created : Nat
  merged_prs : Nat
  rejected_prs : Nat
  success_rate : ℚ
deriving DecidableEq, Repr

/-- The keyword arguments actually passed to the `MetricsSummary`
constructor: `none` marks a field the caller did not supply. -/
structure MetricsPayload where
  total_issues : Option Nat
  new_issues : Option Nat
  fixing_issues : Option Nat
  pr_open_issues : Option Nat
  ci_passed_issues : Option Nat
  ci_failed_issues : Option Nat
  closed_issues : Option Nat
  total_prs_created : Option Nat
  merged_prs : Option Nat
  rejected_prs : Option Nat
  success_rate : Option ℚ
deriving DecidableEq, Repr

/-- Pydantic model validation at construction time: every required field
must be supplied, otherwise a validation error is raised. -/
def validate_metrics (p : MetricsPayload) : Except String MetricsSummary :=
  match p.total_issues, p.new_issues, p.fixing_issues, p.pr_open_issues,
      p.ci_passed_issues, p.ci_failed_issues, p.closed_issues,
      p.total_prs_created, p.merged_prs, p.rejected_prs, p.success_rate with
  | some a, some b, some c, some d, some e, some f, some g, some h, some m,
      some r, some s => Except.ok ⟨a, b, c, d, e, f, g, h, m, r, s⟩
  | _, _, _, _, _, _, _, _, _, _, _ =>
      Except.error "ValidationError: field required"

/-- The `/metrics/summary` route body (`get_metrics_summary` in
`app/api.py`): the status counts and the opened-PR count are computed,
then the merged-PR count at line 154 raises on the unmapped
`Issue.pr_merged` (see `merged_prs_query`), so the route never reaches
the success-rate line or the `MetricsSummary` construction and the
request fails with that error.  The continuation after the raising line
is embedded faithfully from the remaining source lines: were the count
ever to return, the route would compute the rounded success rate and then
construct `MetricsSummary` without passing the required `merged_prs` and
`rejected_prs` fields. -/
def get_metrics_summary (db : DB) : Except String MetricsSummary :=
  match merged_prs_query db with
  | Except.error e => Except.error e
  | Except.ok merged_prs =>
    validate_metrics
      { total_issues := some db.issues.length
        new_issues := some (statusCount db IssueStatus.NEW)
        fixing_issues := some (statusCount db IssueStatus.FIXING)
        pr_open_issues := some (statusCount db IssueStatus.PR_OPEN)
        ci_passed_issues := some (statusCount db IssueStatus.CI_PASSED)
        ci_failed_issues := some (statusCount db IssueStatus.CI_FAILED)
        closed_issues := some (statusCount db IssueStatus.CLOSED)
        total_prs_created := some (total_prs_created_count db)
        merged_prs := none
        rejected_prs := none
        success_rate := some (success_rate_calc merged_prs (total_prs_created_count db)) }

/-! ## Concrete fixtures

Small concrete stores, analyzer outputs and gateway behaviours used to
instantiate the theorems below on closed inputs. -/

/-- A fresh issue row as created by sync for record `KEY-1`. -/
def exIssue : Issue :=
  { id := 1
    sonarqube_issue_key := "KEY-1"
    project_key := "proj"
    rule := "rule"
    severity := "MAJOR"
    component := "src/app.py"
    line := some 3
    message := "issue message"
    status := IssueStatus.NEW
    pr_url := none
    pr_branch := none
    pr_merged := 0 }

/-- A store holding one `NEW` issue. -/
def exDBNew : DB := ⟨[exIssue], [], 2⟩

/-- A store holding one issue in each status other than `NEW`. -/
def exDBStatuses : DB :=
  ⟨[{ exIssue with id := 1, status := IssueStatus.FIXING },
    { exIssue with id := 2, sonarqube_issue_key := "KEY-2", status := IssueStatus.PR_OPEN },
    { exIssue with id := 3, sonarqube_issue_key := "KEY-3", status := IssueStatus.CI_PASSED },
    { exIssue with id := 4, sonarqube_issue_key := "KEY-4", status := IssueStatus.CI_FAILED },
    { exIssue with id := 5, sonarqube_issue_key := "KEY-5", status := IssueStatus.CLOSED }],
   [], 6⟩

/-- Gateway behaviour in which every external call raises. -/
def exEnvDown : FixEnv :=
  { get_file_content := fun _ => Except.error "gateway down"
    aiResponse := Except.error "gateway down"
    create_branch := fun _ => Except.error "gateway down"
    update_file := fun _ _ _ _ _ => Except.error "gateway down"
    create_pull_request := fun _ _ _ => Except.error "gateway down" }

/-- Gateway behaviour in which every external call succeeds and the model
returns a well-formed response. -/
def exEnvOk : FixEnv :=
  { get_file_content := fun _ => Except.ok ("orig content", "sha-1")
    aiResponse := Except.ok "```python\nfixed code\n```\n\nExplanation: removed the bug"
    create_branch := fun _ => Except.ok "branch-sha"
    update_file := fun _ _ _ _ _ => Except.ok "commit-sha"
    create_pull_request := fun _ _ _ => Except.ok "pr-42" }

/-- Analyzer record number `n` of a large scan result. -/
def exRec (n : Nat) : SonarRecord :=
  ⟨"k" ++ toString n, "proj", "rule", "MAJOR", "proj:src/app.py", some 3, "issue message"⟩

/-- One further analyzer record beyond the first 500. -/
def exExtraRecord : SonarRecord :=
  ⟨"extra", "proj", "rule", "MAJOR", "proj:src/app.py", some 9, "untracked finding"⟩

/-- An analyzer holding 501 open findings. -/
def exAllRecords : List SonarRecord := (List.range 500).map exRec ++ [exExtraRecord]

/-- The empty store. -/
def exEmptyDB : DB := ⟨[], [], 0⟩

/-- A store with two open PRs and one issue without a PR. -/
def exDBSweep : DB :=
  ⟨[{ exIssue with
      id := 1
      status := IssueStatus.PR_OPEN
      pr_url := some "pr-1"
      pr_branch := some "b-1" },
    { exIssue with
      id := 2
      sonarqube_issue_key := "KEY-2"
      status := IssueStatus.PR_OPEN
      pr_url := some "pr-2"
      pr_branch := some "b-2" },
    { exIssue with
      id := 3
      sonarqube_issue_key := "KEY-3" }],
   [], 4⟩

/-- PR-status gateway that reports every PR merged. -/
def exGwMerged : String → Except String PRInfo :=
  fun _ => Except.ok ⟨"closed", true, "success"⟩

/-- A store with one issue closed by a human without merging its PR. -/
def exDBClosedNotMerged : DB :=
  ⟨[{ exIssue with
      status := IssueStatus.CLOSED
      pr_url := some "pr-1"
      pr_branch := some "b-1"
      pr_merged := 0 }],
   [], 2⟩

/-- A store with one issue closed after a confirmed merge. -/
def exDBMergedClosed : DB :=
  ⟨[{ exIssue with
      status := IssueStatus.CLOSED
      pr_url := some "pr-1"
      pr_branch := some "b-1"
      pr_merged := 1 }],
   [], 2⟩

/-- A store with three opened PRs of which exactly one is merged. -/
def exDBMetrics : DB :=
  ⟨[{ exIssue with
      id := 1
      status := IssueStatus.CLOSED
      pr_url := some "pr-1"
      pr_branch := some "b-1"
      pr_merged := 1 },
    { exIssue with
      id := 2
      sonarqube_issue_key := "KEY-2"
      status := IssueStatus.PR_OPEN
      pr_url := some "pr-2"
      pr_branch := some "b-2" },
    { exIssue with
      id := 3
      sonarqube_issue_key := "KEY-3"
      status := IssueStatus.PR_OPEN
      pr_url := some "pr-3"
      pr_branch := some "b-3" }],
   [], 4⟩

/-! ## Helper lemmas about the store primitives -/

theorem replaceFirst_length (p : Issue → Bool) (f : Issue → Issue) (l : List Issue) :
    (replaceFirst p f l).length = l.length := by
  induction l with
  | nil => rfl
  | cons i rest ih =>
    simp only [replaceFirst]
    split <;> simp [ih]

theorem replaceFirst_of_fix (p : Issue → Bool) (f : Issue → Issue) (l : List Issue)
    (a : Issue) (h : l.find? p = some a) (hf : f a = a) :
    replaceFirst p f l = l := by
  induction l with
  | nil => simp at h
  | cons i rest ih =>
    simp only [replaceFirst]
    by_cases hp : p i
    · rw [List.find?_cons_of_pos _ hp] at h
      cases h
      simp [hp, hf]
    · rw [List.find?_cons_of_neg _ hp] at h
      simp [hp, ih h]

theorem replaceFirst_comp (p : Issue → Bool) (f g : Issue → Issue) (l : List Issue)
    (hp : ∀ i, p (f i) = p i) :
    replaceFirst p g (replaceFirst p f l) = replaceFirst p (fun i => g (f i)) l := by
  induction l with
  | nil => rfl
  | cons i rest ih =>
    simp only [replaceFirst]
    by_cases hpi : p i
    · simp [replaceFirst, hpi, hp]
    · simp [replaceFirst, hpi, ih]

theorem replaceFirst_mem (p : Issue → Bool) (f : Issue → Issue) (l : List Issue)
    (a : Issue) (h : l.find? p = some a) :
    f a ∈ replaceFirst p f l := by
  induction l with
  | nil => simp at h
  | cons i rest ih =>
    simp only [replaceFirst]
    by_cases hp : p i
    · rw [List.find?_cons_of_pos _ hp] at h
      cases h
      rw [if_pos hp]
      exact List.mem_cons_self _ _
    · rw [List.find?_cons_of_neg _ hp] at h
      simp [hp, ih h]

theorem replaceFirst_getElem?_of_ne (p : Issue → Bool) (f : Issue → Issue)
    (l : List Issue) (a : Issue) (h : l.find? p = some a) (k : Nat)
    (hne : l[k]? ≠ some a) :
    (replaceFirst p f l)[k]? = l[k]? := by
  induction l generalizing k with
  | nil => simp at h
  | cons i rest ih =>
    by_cases hp : p i
    · rw [List.find?_cons_of_pos _ hp] at h
      cases h
      simp only [replaceFirst, if_pos hp]
      match k with
      | 0 => simp at hne
      | k + 1 => simp
    · rw [List.find?_cons_of_neg _ hp] at h
      simp only [replaceFirst, if_neg hp]
      match k with
      | 0 => simp
      | k + 1 => simpa using ih h k (by simpa using hne)

theorem insertRecord_tracks (db : DB) (r : SonarRecord) (k : String) :
    (insertRecord db r).tracks k = (db.tracks k || (r.key == k)) := by
  simp [insertRecord, DB.tracks, recordToIssue, List.any_append]

theorem syncAux_spec (records : List SonarRecord) (db : DB) (n : Nat) :
    ∃ newIssues newEvents,
      (syncAux records db n).2.issues = db.issues ++ newIssues ∧
      (syncAux records db n).2.events = db.events ++ newEvents ∧
      (syncAux records db n).1 = n + newIssues.length ∧
      ∀ i ∈ newIssues, i.status = IssueStatus.NEW ∧
        ∃ e ∈ newEvents, e.issue_id = i.id ∧ e.event_type = EventType.ISSUE_DETECTED := by
  induction records generalizing db n with
  | nil => exact ⟨[], [], by simp [syncAux], by simp [syncAux], by simp [syncAux], by simp⟩
  | cons r rest ih =>
    simp only [syncAux]
    by_cases ht : db.tracks r.key
    · simp only [ht, if_true]
      exact ih db n
    · simp only [ht, if_false, Bool.false_eq_true]
      obtain ⟨nis, nes, h1, h2, h3, h4⟩ := ih (insertRecord db r) (n + 1)
      refine ⟨recordToIssue r db.nextId :: nis,
        (⟨db.nextId, EventType.ISSUE_DETECTED,
          "Issue detected by SonarQube: " ++ r.message⟩ : Event) :: nes, ?_, ?_, ?_, ?_⟩
      · rw [h1]; simp [insertRecord]
      · rw [h2]; simp [insertRecord]
      · rw [h3]; simp; omega
      · intro i hi
        rcases List.mem_cons.mp hi with hi | hi
        · subst hi
          exact ⟨rfl, _, List.mem_cons_self _ _, rfl, rfl⟩
        · obtain ⟨hs, e, he, hid, hty⟩ := h4 i hi
          exact ⟨hs, e, List.mem_cons_of_mem _ he, hid, hty⟩

theorem syncAux_tracks_mono (records : List SonarRecord) (db : DB) (n : Nat)
    (k : String) (h : db.tracks k = true) :
    (syncAux records db n).2.tracks k = true := by
  induction records generalizing db n with
  | nil => exact h
  | cons r rest ih =>
    simp only [syncAux]
    by_cases ht : db.tracks r.key
    · simp only [ht, if_true]
      exact ih db n h
    · simp only [ht, if_false, Bool.false_eq_true]
      exact ih (insertRecord db r) (n + 1) (by simp [insertRecord_tracks, h])

theorem syncAux_tracks_all (records : List SonarRecord) (db : DB) (n : Nat) :
    ∀ r ∈ records, (syncAux records db n).2.tracks r.key = true := by
  induction records generalizing db n with
  | nil => intro r hr; simp at hr
  | cons r rest ih =>
    intro s hs
    simp only [syncAux]
    by_cases ht : db.tracks r.key
    · simp only [ht, if_true]
      rcases List.mem_cons.mp hs with hs | hs
      · subst hs; exact syncAux_tracks_mono rest db n s.key ht
      · exact ih db n s hs
    · simp only [ht, if_false, Bool.false_eq_true]
      rcases List.mem_cons.mp hs with hs | hs
      · subst hs
        exact syncAux_tracks_mono rest (insertRecord db s) (n + 1) s.key
          (by simp [insertRecord_tracks])
      · exact ih (insertRecord db r) (n + 1) s hs

theorem syncAux_skip_all (records : List SonarRecord) (db : DB) (n : Nat)
    (h : ∀ r ∈ records, db.tracks r.key = true) :
    syncAux records db n = (n, db) := by
  induction records with
  | nil => rfl
  | cons r rest ih =>
    simp only [syncAux, h r (List.mem_cons_self _ _), if_true]
    exact ih fun s hs => h s (List.mem_cons_of_mem _ hs)

theorem syncAux_tracks_source (records : List SonarRecord) (db : DB) (n : Nat)
    (k : String) (h : (syncAux records db n).2.tracks k = true) :
    db.tracks k = true ∨ k ∈ records.map SonarRecord.key := by
  induction records generalizing db n with
  | nil => exact Or.inl h
  | cons r rest ih =>
    simp only [syncAux] at h
    by_cases ht : db.tracks r.key
    · simp only [ht, if_true] at h
      rcases ih db n h with hl | hr
      · exact Or.inl hl
      · exact Or.inr (List.mem_cons_of_mem _ hr)
    · simp only [ht, if_false, Bool.false_eq_true] at h
      rcases ih (insertRecord db r) (n + 1) h with hl | hr
      · rw [insertRecord_tracks] at hl
        rcases Bool.or_eq_true_iff.mp hl with hl | hl
        · exact Or.inl hl
        · exact Or.inr (by simp [List.mem_cons]; exact Or.inl (beq_iff_eq.mp hl).symm)
      · exact Or.inr (List.mem_cons_of_mem _ hr)

/-! ## Claim theorems -/

/-- Claim C1: a fix attempt on an issue whose status is not `NEW` (any of
the other five enum values) returns a non-success result naming the current
status and leaves the store — issue rows and event log — completely
unchanged; a fix attempt on a nonexistent issue id returns a non-success
result without mutating anything. -/
theorem attempt_fix_precondition_guard (env : FixEnv) (db : DB) (issue_id : Nat) :
    (db.issues.find? (fun i => i.id == issue_id) = none →
      attempt_fix env issue_id db = (⟨false, "Issue not found", none⟩, db))
    ∧ (∀ issue, db.issues.find? (fun i => i.id == issue_id) = some issue →
        issue.status ≠ IssueStatus.NEW →
        attempt_fix env issue_id db =
          (⟨false, "Issue already in status " ++ statusString issue.status, none⟩,
           db)) := by
  constructor
  · intro h
    simp [attempt_fix, h]
  · intro issue h1 h2
    simp only [attempt_fix, h1]
    rw [if_pos h2]

/-- Witness for C1: the guard fires on a concrete store for every non-`NEW`
status and for a missing id. -/
theorem attempt_fix_precondition_guard_witness :
    attempt_fix exEnvDown 99 exDBStatuses = (⟨false, "Issue not found", none⟩, exDBStatuses)
    ∧ attempt_fix exEnvDown 1 exDBStatuses =
        (⟨false, "Issue already in status FIXING", none⟩, exDBStatuses)
    ∧ attempt_fix exEnvDown 2 exDBStatuses =
        (⟨false, "Issue already in status PR_OPEN", none⟩, exDBStatuses)
    ∧ attempt_fix exEnvDown 3 exDBStatuses =
        (⟨false, "Issue already in status CI_PASSED", none⟩, exDBStatuses)
    ∧ attempt_fix exEnvDown 4 exDBStatuses =
        (⟨false, "Issue already in status CI_FAILED", none⟩, exDBStatuses)
    ∧ attempt_fix exEnvDown 5 exDBStatuses =
        (⟨false, "Issue already in status CLOSED", none⟩, exDBStatuses) := by
  refine ⟨?_, ?_, ?_, ?_, ?_, ?_⟩
  · exact (attempt_fix_precondition_guard exEnvDown exDBStatuses 99).1 (by decide)
  · exact (attempt_fix_precondition_guard exEnvDown exDBStatuses 1).2
      { exIssue with id := 1, status := IssueStatus.FIXING } (by decide) (by decide)
  · exact (attempt_fix_precondition_guard exEnvDown exDBStatuses 2).2
      { exIssue with id := 2, sonarqube_issue_key := "KEY-2", status := IssueStatus.PR_OPEN }
      (by decide) (by decide)
  · exact (attempt_fix_precondition_guard exEnvDown exDBStatuses 3).2
      { exIssue with id := 3, sonarqube_issue_key := "KEY-3", status := IssueStatus.CI_PASSED }
      (by decide) (by decide)
  · exact (attempt_fix_precondition_guard exEnvDown exDBStatuses 4).2
      { exIssue with id := 4, sonarqube_issue_key := "KEY-4", status := IssueStatus.CI_FAILED }
      (by decide) (by decide)
  · exact (attempt_fix_precondition_guard exEnvDown exDBStatuses 5).2
      { exIssue with id := 5, sonarqube_issue_key := "KEY-5", status := IssueStatus.CLOSED }
      (by decide) (by decide)

/-- Claim C4: sync is insert-only (existing issue rows are preserved
verbatim; a record whose natural key is already tracked changes nothing)
and idempotent: a second sync with identical analyzer output creates zero
new issues and leaves the store unchanged. -/
theorem sync_insert_only_idempotent (records : List SonarRecord) (db : DB) :
    (∃ newIssues, (sync_sonarqube_issues records db).2.issues = db.issues ++ newIssues)
    ∧ ((∀ r ∈ records, db.tracks r.key = true) →
        sync_sonarqube_issues records db = (0, db))
    ∧ sync_sonarqube_issues records (sync_sonarqube_issues records db).2
        = (0, (sync_sonarqube_issues records db).2) := by
  refine ⟨?_, ?_, ?_⟩
  · obtain ⟨nis, _, hi, _⟩ := syncAux_spec records db 0
    exact ⟨nis, hi⟩
  · exact fun h => syncAux_skip_all records db 0 h
  · exact syncAux_skip_all records _ 0 (fun r hr => syncAux_tracks_all records db 0 r hr)

/-- Witness for C4: a record whose key is already tracked is skipped with
no mutation at all on a concrete store. -/
theorem sync_insert_only_idempotent_witness :
    sync_sonarqube_issues
        [⟨"KEY-1", "proj", "rule", "MAJOR", "proj:src/app.py", some 3, "issue message"⟩]
        exDBNew = (0, exDBNew) :=
  (sync_insert_only_idempotent
    [⟨"KEY-1", "proj", "rule", "MAJOR", "proj:src/app.py", some 3, "issue message"⟩]
    exDBNew).2.1 (by decide)

/-- Claim C5 (amended): one sync call fetches a single page of at most 500
matching records (the first page of the gateway request issued with
`page_size=500`); every record on that fetched page whose natural key is
not yet tracked is created as a `NEW` issue with a detection event, and
every record on that page is tracked afterwards.  Findings beyond the
first 500 are not fetched. -/
theorem sync_tracks_first_page (allRecords : List SonarRecord) (db : DB) :
    get_issues_page allRecords 1 500 = allRecords.take 500
    ∧ (∀ r ∈ get_issues_page allRecords 1 500,
        (sync_from_server allRecords db).2.tracks r.key = true)
    ∧ ∃ newIssues newEvents,
        (sync_from_server allRecords db).2.issues = db.issues ++ newIssues ∧
        (sync_from_server allRecords db).2.events = db.events ++ newEvents ∧
        (sync_from_server allRecords db).1 = newIssues.length ∧
        ∀ i ∈ newIssues, i.status = IssueStatus.NEW ∧
          ∃ e ∈ newEvents, e.issue_id = i.id ∧
            e.event_type = EventType.ISSUE_DETECTED := by
  refine ⟨by simp [get_issues_page], ?_, ?_⟩
  · intro r hr
    exact syncAux_tracks_all _ db 0 r hr
  · obtain ⟨nis, nes, h1, h2, h3, h4⟩ :=
      syncAux_spec (get_issues_page allRecords 1 500) db 0
    exact ⟨nis, nes, h1, h2, by simpa using h3, h4⟩

/-- Witness for C5 (amended): syncing a one-record analyzer output into the
empty store tracks that record. -/
theorem sync_tracks_first_page_witness :
    (sync_from_server [exExtraRecord] exEmptyDB).2.tracks "extra" = true :=
  (sync_tracks_first_page [exExtraRecord] exEmptyDB).2.1 exExtraRecord (by decide)

set_option maxRecDepth 8000 in
/-- Counterexample to C5 as stated: with 501 open findings reported by the
analyzer, the finding with key `extra` (position 501) is reported by the
analyzer yet remains untracked after one sync call, because the sync
issues a single `get_issues` request for page 1 with `page_size=500` and
never follows the paging. -/
theorem sync_paging_counterexample :
    (∃ r ∈ exAllRecords, r.key = "extra")
    ∧ (sync_from_server exAllRecords exEmptyDB).2.tracks "extra" = false := by
  constructor
  · exact ⟨exExtraRecord, by simp [exAllRecords], rfl⟩
  · have hfetch : get_issues_page exAllRecords 1 500 = (List.range 500).map exRec := by
      unfold get_issues_page exAllRecords
      rw [show (1 - 1) * 500 = 0 from rfl, List.drop_zero]
      rw [show (500 : Nat) = ((List.range 500).map exRec).length from by simp]
      exact List.take_left _ _
    cases hb : (sync_from_server exAllRecords exEmptyDB).2.tracks "extra"
    · rfl
    · exfalso
      unfold sync_from_server sync_sonarqube_issues at hb
      rw [hfetch] at hb
      rcases syncAux_tracks_source _ _ _ _ hb with h | h
      · simp [exEmptyDB, DB.tracks] at h
      · exact absurd h (by decide)

/-- Claim C2: for each injectable gateway failure point of a fix attempt on
a `NEW` issue — file read, branch creation, commit, and pull-request
creation — a raised gateway call leaves the issue rows unchanged (so the
issue is back in `NEW` with `pr_url` and `pr_branch` as they were, i.e.
unset), appends exactly one new `ERROR` event for that failure (plus the
non-error bookkeeping events), and returns a non-success result. -/
theorem attempt_fix_gateway_failure_reverts (env : FixEnv) (db : DB)
    (issue_id : Nat) (issue : Issue)
    (h1 : db.issues.find? (fun i => i.id == issue_id) = some issue)
    (h2 : issue.status = IssueStatus.NEW) :
    (∀ e, env.get_file_content issue.component = Except.error e →
      attempt_fix env issue_id db =
        (⟨false, "Failed to fetch file from GitHub: " ++ e, none⟩,
         { db with events := db.events ++
             [⟨issue.id, EventType.STATUS_UPDATED, "Status changed to FIXING"⟩,
              ⟨issue.id, EventType.ERROR, "Failed to fetch file from GitHub: " ++ e⟩] })
      ∧ ([⟨issue.id, EventType.STATUS_UPDATED, "Status changed to FIXING"⟩,
          (⟨issue.id, EventType.ERROR, "Failed to fetch file from GitHub: " ++ e⟩ : Event)
         ].countP (fun ev => ev.event_type == EventType.ERROR)) = 1)
    ∧ (∀ content sha e,
        env.get_file_content issue.component = Except.ok (content, sha) →
        (generate_fix env.aiResponse content).success = true →
        env.create_branch ("ai-fix/" ++ issue.sonarqube_issue_key) = Except.error e →
        attempt_fix env issue_id db =
          (⟨false, "Failed to create branch or commit: " ++ e, none⟩,
           { db with events := db.events ++
               [⟨issue.id, EventType.STATUS_UPDATED, "Status changed to FIXING"⟩,
                ⟨issue.id, EventType.AI_CALLED, "Requesting AI to generate fix"⟩,
                ⟨issue.id, EventType.ERROR, "Failed to create branch or commit: " ++ e⟩] })
        ∧ ([⟨issue.id, EventType.STATUS_UPDATED, "Status changed to FIXING"⟩,
            ⟨issue.id, EventType.AI_CALLED, "Requesting AI to generate fix"⟩,
            (⟨issue.id, EventType.ERROR, "Failed to create branch or commit: " ++ e⟩ : Event)
           ].countP (fun ev => ev.event_type == EventType.ERROR)) = 1)
    ∧ (∀ content sha bsha e,
        env.get_file_content issue.component = Except.ok (content, sha) →
        (generate_fix env.aiResponse content).success = true →
        env.create_branch ("ai-fix/" ++ issue.sonarqube_issue_key) = Except.ok bsha →
        env.update_file issue.component (generate_fix env.aiResponse content).fixed_content
          (commitMessage issue (generate_fix env.aiResponse content).explanation)
          ("ai-fix/" ++ issue.sonarqube_issue_key) sha = Except.error e →
        attempt_fix env issue_id db =
          (⟨false, "Failed to create branch or commit: " ++ e, none⟩,
           { db with events := db.events ++
               [⟨issue.id, EventType.STATUS_UPDATED, "Status changed to FIXING"⟩,
                ⟨issue.id, EventType.AI_CALLED, "Requesting AI to generate fix"⟩,
                ⟨issue.id, EventType.ERROR, "Failed to create branch or commit: " ++ e⟩] }))
    ∧ (∀ content sha bsha csha e,
        env.get_file_content issue.component = Except.ok (content, sha) →
        (generate_fix env.aiResponse content).success = true →
        env.create_branch ("ai-fix/" ++ issue.sonarqube_issue_key) = Except.ok bsha →
        env.update_file issue.component (generate_fix env.aiResponse content).fixed_content
          (commitMessage issue (generate_fix env.aiResponse content).explanation)
          ("ai-fix/" ++ issue.sonarqube_issue_key) sha = Except.ok csha →
        env.create_pull_request (prTitle issue)
          (prBody issue (generate_fix env.aiResponse content).explanation)
          ("ai-fix/" ++ issue.sonarqube_issue_key) = Except.error e →
        attempt_fix env issue_id db =
          (⟨false, "Failed to create pull request: " ++ e, none⟩,
           { db with events := db.events ++
               [⟨issue.id, EventType.STATUS_UPDATED, "Status changed to FIXING"⟩,
                ⟨issue.id, EventType.AI_CALLED, "Requesting AI to generate fix"⟩,
                ⟨issue.id, EventType.ERROR, "Failed to create pull request: " ++ e⟩] })) := by
  have hid : issue.id = issue_id := by simpa using List.find?_some h1
  refine ⟨?_, ?_, ?_, ?_⟩
  · intro e hA
    refine ⟨?_, rfl⟩
    simp only [attempt_fix, h1]
    rw [if_neg (not_not_intro h2)]
    rw [hA]
    simp only [revertToNew, DB.updateIssue, DB.addEvent]
    rw [hid]
    rw [replaceFirst_comp (fun i => i.id == issue_id)
        (fun i => { i with status := IssueStatus.FIXING })
        (fun i => { i with status := IssueStatus.NEW }) db.issues (fun i => rfl)]
    rw [replaceFirst_of_fix _ _ _ issue h1 (by cases issue; simp_all)]
    simp
  · intro content sha e hA hS hB
    refine ⟨?_, rfl⟩
    simp only [attempt_fix, h1]
    rw [if_neg (not_not_intro h2)]
    rw [hA]
    simp only []
    rw [if_neg (not_not_intro hS)]
    rw [hB]
    simp only [revertToNew, DB.updateIssue, DB.addEvent]
    rw [hid]
    rw [replaceFirst_comp (fun i => i.id == issue_id)
        (fun i => { i with status := IssueStatus.FIXING })
        (fun i => { i with status := IssueStatus.NEW }) db.issues (fun i => rfl)]
    rw [replaceFirst_of_fix _ _ _ issue h1 (by cases issue; simp_all)]
    simp
  · intro content sha bsha e hA hS hB hU
    simp only [attempt_fix, h1]
    rw [if_neg (not_not_intro h2)]
    rw [hA]
    simp only []
    rw [if_neg (not_not_intro hS)]
    rw [hB, hU]
    simp only [revertToNew, DB.updateIssue, DB.addEvent]
    rw [hid]
    rw [replaceFirst_comp (fun i => i.id == issue_id)
        (fun i => { i with status := IssueStatus.FIXING })
        (fun i => { i with status := IssueStatus.NEW }) db.issues (fun i => rfl)]
    rw [replaceFirst_of_fix _ _ _ issue h1 (by cases issue; simp_all)]
    simp
  · intro content sha bsha csha e hA hS hB hU hP
    simp only [attempt_fix, h1]
    rw [if_neg (not_not_intro h2)]
    rw [hA]
    simp only []
    rw [if_neg (not_not_intro hS)]
    rw [hB, hU, hP]
    simp only [revertToNew, DB.updateIssue, DB.addEvent]
    rw [hid]
    rw [replaceFirst_comp (fun i => i.id == issue_id)
        (fun i => { i with status := IssueStatus.FIXING })
        (fun i => { i with status := IssueStatus.NEW }) db.issues (fun i => rfl)]
    rw [replaceFirst_of_fix _ _ _ issue h1 (by cases issue; simp_all)]
    simp

/-- Witness for C2: each of the four gateway failure points, injected on a
concrete one-issue store, reverts the store and reports the failure. -/
theorem attempt_fix_gateway_failure_reverts_witness :
    attempt_fix { exEnvOk with get_file_content := fun _ => Except.error "read down" }
        1 exDBNew =
      (⟨false, "Failed to fetch file from GitHub: read down", none⟩,
       { exDBNew with events := exDBNew.events ++
           [⟨1, EventType.STATUS_UPDATED, "Status changed to FIXING"⟩,
            ⟨1, EventType.ERROR, "Failed to fetch file from GitHub: read down"⟩] })
    ∧ attempt_fix { exEnvOk with create_branch := fun _ => Except.error "branch down" }
        1 exDBNew =
      (⟨false, "Failed to create branch or commit: branch down", none⟩,
       { exDBNew with events := exDBNew.events ++
           [⟨1, EventType.STATUS_UPDATED, "Status changed to FIXING"⟩,
            ⟨1, EventType.AI_CALLED, "Requesting AI to generate fix"⟩,
            ⟨1, EventType.ERROR, "Failed to create branch or commit: branch down"⟩] })
    ∧ attempt_fix { exEnvOk with update_file := fun _ _ _ _ _ => Except.error "commit down" }
        1 exDBNew =
      (⟨false, "Failed to create branch or commit: commit down", none⟩,
       { exDBNew with events := exDBNew.events ++
           [⟨1, EventType.STATUS_UPDATED, "Status changed to FIXING"⟩,
            ⟨1, EventType.AI_CALLED, "Requesting AI to generate fix"⟩,
            ⟨1, EventType.ERROR, "Failed to create branch or commit: commit down"⟩] })
    ∧ attempt_fix { exEnvOk with create_pull_request := fun _ _ _ => Except.error "pr down" }
        1 exDBNew =
      (⟨false, "Failed to create pull request: pr down", none⟩,
       { exDBNew with events := exDBNew.events ++
           [⟨1, EventType.STATUS_UPDATED, "Status changed to FIXING"⟩,
            ⟨1, EventType.AI_CALLED, "Requesting AI to generate fix"⟩,
            ⟨1, EventType.ERROR, "Failed to create pull request: pr down"⟩] }) := by
  refine ⟨?_, ?_, ?_, ?_⟩
  · exact ((attempt_fix_gateway_failure_reverts
      { exEnvOk with get_file_content := fun _ => Except.error "read down" }
      exDBNew 1 exIssue rfl rfl).1 "read down" rfl).1
  · exact ((attempt_fix_gateway_failure_reverts
      { exEnvOk with create_branch := fun _ => Except.error "branch down" }
      exDBNew 1 exIssue rfl rfl).2.1 "orig content" "sha-1" "branch down"
      rfl rfl rfl).1
  · exact (attempt_fix_gateway_failure_reverts
      { exEnvOk with update_file := fun _ _ _ _ _ => Except.error "commit down" }
      exDBNew 1 exIssue rfl rfl).2.2.1 "orig content" "sha-1" "branch-sha" "commit down"
      rfl rfl rfl rfl
  · exact (attempt_fix_gateway_failure_reverts
      { exEnvOk with create_pull_request := fun _ _ _ => Except.error "pr down" }
      exDBNew 1 exIssue rfl rfl).2.2.2 "orig content" "sha-1" "branch-sha" "commit-sha"
      "pr down" rfl rfl rfl rfl rfl

/-- Claim C3: when the issue exists in status `NEW`, the file read succeeds,
the patch generator reports success, and branch creation, commit and PR
creation all succeed, the fix attempt ends with the issue in `PR_OPEN`
carrying the PR reference and the branch name, returns success with the PR
reference, and the event log gains, in order, the status-changed(FIXING),
ai-invoked and pr-created events. -/
theorem attempt_fix_success_path (env : FixEnv) (db : DB) (issue_id : Nat)
    (issue : Issue) (content sha bsha csha prUrl : String)
    (h1 : db.issues.find? (fun i => i.id == issue_id) = some issue)
    (h2 : issue.status = IssueStatus.NEW)
    (hA : env.get_file_content issue.component = Except.ok (content, sha))
    (hS : (generate_fix env.aiResponse content).success = true)
    (hB : env.create_branch ("ai-fix/" ++ issue.sonarqube_issue_key) = Except.ok bsha)
    (hU : env.update_file issue.component (generate_fix env.aiResponse content).fixed_content
      (commitMessage issue (generate_fix env.aiResponse content).explanation)
      ("ai-fix/" ++ issue.sonarqube_issue_key) sha = Except.ok csha)
    (hP : env.create_pull_request (prTitle issue)
      (prBody issue (generate_fix env.aiResponse content).explanation)
      ("ai-fix/" ++ issue.sonarqube_issue_key) = Except.ok prUrl) :
    attempt_fix env issue_id db =
      (⟨true, "Fix applied and PR created: " ++ prUrl, some prUrl⟩,
       { db with
         issues := replaceFirst (fun i => i.id == issue_id)
           (fun i => { i with status := IssueStatus.PR_OPEN, pr_url := some prUrl, pr_branch := some ("ai-fix/" ++ issue.sonarqube_issue_key) }) db.issues
         events := db.events ++
           [⟨issue.id, EventType.STATUS_UPDATED, "Status changed to FIXING"⟩,
            ⟨issue.id, EventType.AI_CALLED, "Requesting AI to generate fix"⟩,
            ⟨issue.id, EventType.PR_CREATED, "Pull request created: " ++ prUrl⟩] })
    ∧ { issue with status := IssueStatus.PR_OPEN, pr_url := some prUrl, pr_branch := some ("ai-fix/" ++ issue.sonarqube_issue_key) }
      ∈ (attempt_fix env issue_id db).2.issues := by
  have hid : issue.id = issue_id := by simpa using List.find?_some h1
  have hmain : attempt_fix env issue_id db =
      (⟨true, "Fix applied and PR created: " ++ prUrl, some prUrl⟩,
       { db with
         issues := replaceFirst (fun i => i.id == issue_id)
           (fun i => { i with status := IssueStatus.PR_OPEN, pr_url := some prUrl, pr_branch := some ("ai-fix/" ++ issue.sonarqube_issue_key) }) db.issues
         events := db.events ++
           [⟨issue.id, EventType.STATUS_UPDATED, "Status changed to FIXING"⟩,
            ⟨issue.id, EventType.AI_CALLED, "Requesting AI to generate fix"⟩,
            ⟨issue.id, EventType.PR_CREATED, "Pull request created: " ++ prUrl⟩] }) := by
    simp only [attempt_fix, h1]
    rw [if_neg (not_not_intro h2)]
    rw [hA]
    simp only []
    rw [if_neg (not_not_intro hS)]
    rw [hB, hU, hP]
    simp only [DB.updateIssue, DB.addEvent]
    rw [hid]
    rw [replaceFirst_comp (fun i => i.id == issue_id)
        (fun i => { i with status := IssueStatus.FIXING })
        (fun i => { i with status := IssueStatus.PR_OPEN, pr_url := some prUrl, pr_branch := some ("ai-fix/" ++ issue.sonarqube_issue_key) })
        db.issues (fun i => rfl)]
    simp
  refine ⟨hmain, ?_⟩
  rw [hmain]
  exact replaceFirst_mem _ _ db.issues issue (hid ▸ h1)

/-- Witness for C3: the full success path on a concrete one-issue store. -/
theorem attempt_fix_success_path_witness :
    attempt_fix exEnvOk 1 exDBNew =
      (⟨true, "Fix applied and PR created: pr-42", some "pr-42"⟩,
       { exDBNew with
         issues := replaceFirst (fun i => i.id == 1)
           (fun i => { i with status := IssueStatus.PR_OPEN, pr_url := some "pr-42", pr_branch := some "ai-fix/KEY-1" }) exDBNew.issues
         events := exDBNew.events ++
           [⟨1, EventType.STATUS_UPDATED, "Status changed to FIXING"⟩,
            ⟨1, EventType.AI_CALLED, "Requesting AI to generate fix"⟩,
            ⟨1, EventType.PR_CREATED, "Pull request created: pr-42"⟩] })
    ∧ { exIssue with status := IssueStatus.PR_OPEN, pr_url := some "pr-42", pr_branch := some "ai-fix/KEY-1" } ∈ (attempt_fix exEnvOk 1 exDBNew).2.issues :=
  attempt_fix_success_path exEnvOk exDBNew 1 exIssue "orig content" "sha-1"
    "branch-sha" "commit-sha" "pr-42" rfl rfl rfl rfl rfl rfl rfl

/-- Claim C9 (amended): an empty model response, or a raised model call, is
what the generator reports as failure; in that case the fix attempt reverts
the issue to `NEW`, appends one error event embedding the generator
explanation, returns failure, and the issue rows are unchanged (no branch,
commit or PR recorded).  A non-empty response from which no code block can
be extracted is instead reported by the generator as a success whose fixed
content is the original file content, so the attempt proceeds. -/
theorem ai_failure_handling (env : FixEnv) (db : DB) (issue_id : Nat)
    (issue : Issue) (content sha : String)
    (h1 : db.issues.find? (fun i => i.id == issue_id) = some issue)
    (h2 : issue.status = IssueStatus.NEW)
    (hA : env.get_file_content issue.component = Except.ok (content, sha)) :
    (env.aiResponse = Except.ok "" →
      attempt_fix env issue_id db =
        (⟨false, "AI failed to generate fix: " ++ "AI returned empty response", none⟩,
         { db with events := db.events ++
             [⟨issue.id, EventType.STATUS_UPDATED, "Status changed to FIXING"⟩,
              ⟨issue.id, EventType.AI_CALLED, "Requesting AI to generate fix"⟩,
              ⟨issue.id, EventType.ERROR,
                "AI failed to generate fix: " ++ "AI returned empty response"⟩] }))
    ∧ (∀ e, env.aiResponse = Except.error e →
        attempt_fix env issue_id db =
          (⟨false, "AI failed to generate fix: " ++ ("Error calling AI: " ++ e), none⟩,
           { db with events := db.events ++
               [⟨issue.id, EventType.STATUS_UPDATED, "Status changed to FIXING"⟩,
                ⟨issue.id, EventType.AI_CALLED, "Requesting AI to generate fix"⟩,
                ⟨issue.id, EventType.ERROR,
                  "AI failed to generate fix: " ++ ("Error calling AI: " ++ e)⟩] }))
    ∧ (∀ response, response ≠ "" → (splitOnStr response "```").length < 3 →
        generate_fix (Except.ok response) content =
          ⟨true, content, "AI provided a fix."⟩) := by
  have hid : issue.id = issue_id := by simpa using List.find?_some h1
  refine ⟨?_, ?_, ?_⟩
  · intro hE
    simp only [attempt_fix, h1]
    rw [if_neg (not_not_intro h2)]
    rw [hA]
    simp only []
    rw [hE]
    simp only [generate_fix, if_pos rfl]
    simp only [revertToNew, DB.updateIssue, DB.addEvent]
    rw [hid]
    rw [replaceFirst_comp (fun i => i.id == issue_id)
        (fun i => { i with status := IssueStatus.FIXING })
        (fun i => { i with status := IssueStatus.NEW }) db.issues (fun i => rfl)]
    rw [replaceFirst_of_fix _ _ _ issue h1 (by cases issue; simp_all)]
    simp
  · intro e hE
    simp only [attempt_fix, h1]
    rw [if_neg (not_not_intro h2)]
    rw [hA]
    simp only []
    rw [hE]
    simp only [generate_fix]
    simp only [revertToNew, DB.updateIssue, DB.addEvent]
    rw [hid]
    rw [replaceFirst_comp (fun i => i.id == issue_id)
        (fun i => { i with status := IssueStatus.FIXING })
        (fun i => { i with status := IssueStatus.NEW }) db.issues (fun i => rfl)]
    rw [replaceFirst_of_fix _ _ _ issue h1 (by cases issue; simp_all)]
    simp
  · intro response hne hlt
    simp only [generate_fix, if_neg hne]
    simp only [parse_ai_response]
    rw [if_neg (by omega)]

/-- Witness for C9 (amended): empty response and raised model call on a
concrete one-issue store, and a concrete unparseable response. -/
theorem ai_failure_handling_witness :
    attempt_fix { exEnvOk with aiResponse := Except.ok "" } 1 exDBNew =
      (⟨false, "AI failed to generate fix: " ++ "AI returned empty response", none⟩,
       { exDBNew with events := exDBNew.events ++
           [⟨1, EventType.STATUS_UPDATED, "Status changed to FIXING"⟩,
            ⟨1, EventType.AI_CALLED, "Requesting AI to generate fix"⟩,
            ⟨1, EventType.ERROR,
              "AI failed to generate fix: " ++ "AI returned empty response"⟩] })
    ∧ attempt_fix { exEnvOk with aiResponse := Except.error "model down" } 1 exDBNew =
      (⟨false, "AI failed to generate fix: " ++ ("Error calling AI: " ++ "model down"),
        none⟩,
       { exDBNew with events := exDBNew.events ++
           [⟨1, EventType.STATUS_UPDATED, "Status changed to FIXING"⟩,
            ⟨1, EventType.AI_CALLED, "Requesting AI to generate fix"⟩,
            ⟨1, EventType.ERROR,
              "AI failed to generate fix: " ++ ("Error calling AI: " ++ "model down")⟩] })
    ∧ generate_fix (Except.ok "no fix available") "orig content" =
        ⟨true, "orig content", "AI provided a fix."⟩ := by
  refine ⟨?_, ?_, ?_⟩
  · exact (ai_failure_handling { exEnvOk with aiResponse := Except.ok "" }
      exDBNew 1 exIssue "orig content" "sha-1" rfl rfl rfl).1 rfl
  · exact (ai_failure_handling { exEnvOk with aiResponse := Except.error "model down" }
      exDBNew 1 exIssue "orig content" "sha-1" rfl rfl rfl).2.1 "model down" rfl
  · exact (ai_failure_handling exEnvOk exDBNew 1 exIssue "orig content" "sha-1"
      rfl rfl rfl).2.2 "no fix available" (by decide) (by decide)

/-- Counterexample to C9 as stated: a non-empty but unparseable model
response (no code block at all) is NOT treated as a generation failure —
the generator reports success with the original file content as the fix,
and the fix attempt proceeds all the way to an open pull request. -/
theorem ai_unparseable_counterexample :
    generate_fix (Except.ok "I cannot produce a fix for this issue.") "orig content" =
      ⟨true, "orig content", "AI provided a fix."⟩
    ∧ (attempt_fix
        { exEnvOk with aiResponse := Except.ok "I cannot produce a fix for this issue." }
        1 exDBNew).1 =
      ⟨true, "Fix applied and PR created: pr-42", some "pr-42"⟩
    ∧ (attempt_fix
        { exEnvOk with aiResponse := Except.ok "I cannot produce a fix for this issue." }
        1 exDBNew).2.issues.map (fun i => i.status) = [IssueStatus.PR_OPEN] := by
  refine ⟨rfl, rfl, rfl⟩

/-- Claim C6 (code bug): the merge-reconciliation sweep never performs its
contract.  The first statement of its `try` block builds the row query,
whose filter accesses `Issue.pr_merged` — an attribute `models.py` does
not map — so the query raises `AttributeError` and the function-level
handler returns 0.  The sweep therefore queries no gateway, transitions
no issue, appends no event, and returns `(0, db)` for every store state
and gateway behaviour — including a store holding an open PR that the
gateway would report merged, which the claimed contract says must be
transitioned to merged/`CLOSED` and counted. -/
theorem sweep_never_reconciles_bug :
    (∀ (gw : String → Except String PRInfo) (db : DB),
      update_pr_merge_status gw db = (0, db))
    ∧ update_pr_merge_status exGwMerged exDBSweep = (0, exDBSweep)
    ∧ ∃ i ∈ exDBSweep.issues, i.pr_url = some "pr-1" ∧ i.pr_merged ≠ 1
        ∧ exGwMerged "pr-1" = Except.ok ⟨"closed", true, "success"⟩
        ∧ i.status ≠ IssueStatus.CLOSED := by
  refine ⟨fun gw db => rfl, rfl, ?_⟩
  exact ⟨{ exIssue with id := 1, status := IssueStatus.PR_OPEN, pr_url := some "pr-1", pr_branch := some "b-1" },
    by decide, rfl, by decide, rfl, by decide⟩

/-- Claim C7: `CLOSED` is terminal and the merged state is monotone: sync
never changes an existing issue row; a fix attempt never changes a row
whose status is `CLOSED`; the reconciliation sweep keeps every `CLOSED` row
`CLOSED`; and a row that is both merged and `CLOSED` is left completely
unchanged by the sweep, whatever the gateway keeps reporting. -/
theorem closed_status_terminal (db : DB) :
    (∀ (records : List SonarRecord) (k : Nat) (i : Issue), db.issues[k]? = some i →
        (sync_sonarqube_issues records db).2.issues[k]? = some i)
    ∧ (∀ (env : FixEnv) (issue_id k : Nat) (i : Issue), db.issues[k]? = some i →
        i.status = IssueStatus.CLOSED →
        (attempt_fix env issue_id db).2.issues[k]? = some i)
    ∧ (∀ (gw : String → Except String PRInfo) (k : Nat) (i : Issue), db.issues[k]? = some i → i.status = IssueStatus.CLOSED →
        ∃ j, (update_pr_merge_status gw db).2.issues[k]? = some j ∧
          j.status = IssueStatus.CLOSED)
    ∧ (∀ (gw : String → Except String PRInfo) (k : Nat) (i : Issue), db.issues[k]? = some i → i.status = IssueStatus.CLOSED →
        i.pr_merged = 1 →
        (update_pr_merge_status gw db).2.issues[k]? = some i) := by
  refine ⟨?_, ?_, ?_, ?_⟩
  · intro records k i hk
    obtain ⟨nis, _, h1, _⟩ := syncAux_spec records db 0
    have hlt : k < db.issues.length := (List.getElem?_eq_some.mp hk).1
    show (syncAux records db 0).2.issues[k]? = some i
    rw [h1, List.getElem?_append, if_pos hlt]
    exact hk
  · intro env issue_id k i hk hc
    rcases hf : db.issues.find? (fun x => x.id == issue_id) with _ | issue
    · simp [attempt_fix, hf, hk]
    · by_cases hst : issue.status = IssueStatus.NEW
      case neg =>
        simp only [attempt_fix, hf]
        rw [if_pos hst]
        exact hk
      case pos =>
        have hid : issue.id = issue_id := by simpa using List.find?_some hf
        have hne : db.issues[k]? ≠ some issue := by
          rw [hk]
          intro hcon
          rw [Option.some.inj hcon, hst] at hc
          cases hc
        have hstep : ∀ f : Issue → Issue,
            (replaceFirst (fun x => x.id == issue_id) f
              (replaceFirst (fun x => x.id == issue_id)
                (fun x => { x with status := IssueStatus.FIXING }) db.issues))[k]?
              = some i := by
          intro f
          rw [replaceFirst_comp (fun x => x.id == issue_id)
            (fun x => { x with status := IssueStatus.FIXING }) f db.issues
            (fun _ => rfl)]
          rw [replaceFirst_getElem?_of_ne _ _ _ issue hf k hne]
          exact hk
        simp only [attempt_fix, hf]
        rw [if_neg (not_not_intro hst)]
        cases hA : env.get_file_content issue.component with
        | error e =>
          simp only [revertToNew, DB.updateIssue, DB.addEvent]
          rw [hid]
          exact hstep _
        | ok p =>
          obtain ⟨content, sha⟩ := p
          simp only []
          by_cases hai : (generate_fix env.aiResponse content).success = true
          case neg =>
            rw [if_pos hai]
            simp only [revertToNew, DB.updateIssue, DB.addEvent]
            rw [hid]
            exact hstep _
          case pos =>
            rw [if_neg (not_not_intro hai)]
            cases hB : env.create_branch ("ai-fix/" ++ issue.sonarqube_issue_key) with
            | error e =>
              simp only [revertToNew, DB.updateIssue, DB.addEvent]
              rw [hid]
              exact hstep _
            | ok bsha =>
              cases hU : env.update_file issue.component
                  (generate_fix env.aiResponse content).fixed_content
                  (commitMessage issue (generate_fix env.aiResponse content).explanation)
                  ("ai-fix/" ++ issue.sonarqube_issue_key) sha with
              | error e =>
                simp only [revertToNew, DB.updateIssue, DB.addEvent]
                rw [hid]
                exact hstep _
              | ok csha =>
                cases hP : env.create_pull_request (prTitle issue)
                    (prBody issue (generate_fix env.aiResponse content).explanation)
                    ("ai-fix/" ++ issue.sonarqube_issue_key) with
                | error e =>
                  simp only [revertToNew, DB.updateIssue, DB.addEvent]
                  rw [hid]
                  exact hstep _
                | ok prUrl =>
                  simp only [DB.updateIssue, DB.addEvent]
                  rw [hid]
                  exact hstep _
  · intro gw k i hk hc
    exact ⟨i, hk, hc⟩
  · intro gw k i hk hc hm
    exact hk

/-- Witness for C7: a merged-and-closed issue row is untouched by sync, by
a fix attempt and by a sweep whose gateway keeps reporting merged=true. -/
theorem closed_status_terminal_witness :
    (sync_sonarqube_issues [exRec 0] exDBMergedClosed).2.issues[0]? =
      some { exIssue with status := IssueStatus.CLOSED, pr_url := some "pr-1", pr_branch := some "b-1", pr_merged := 1 }
    ∧ (attempt_fix exEnvOk 1 exDBMergedClosed).2.issues[0]? =
      some { exIssue with status := IssueStatus.CLOSED, pr_url := some "pr-1", pr_branch := some "b-1", pr_merged := 1 }
    ∧ (∃ j, (update_pr_merge_status exGwMerged exDBMergedClosed).2.issues[0]? = some j
        ∧ j.status = IssueStatus.CLOSED)
    ∧ (update_pr_merge_status exGwMerged exDBMergedClosed).2.issues[0]? =
      some { exIssue with status := IssueStatus.CLOSED, pr_url := some "pr-1", pr_branch := some "b-1", pr_merged := 1 } := by
  refine ⟨?_, ?_, ?_, ?_⟩
  · exact (closed_status_terminal exDBMergedClosed).1 [exRec 0] 0 _ rfl
  · exact (closed_status_terminal exDBMergedClosed).2.1 exEnvOk 1 0 _ rfl rfl
  · exact (closed_status_terminal exDBMergedClosed).2.2.1 exGwMerged 0 _ rfl rfl
  · exact (closed_status_terminal exDBMergedClosed).2.2.2 exGwMerged 0 _ rfl rfl rfl

/-- Claim C8: for every issue whose status is already `CLOSED` while
`pr_merged` is still `0` (a PR closed by a human without merging), the
reconciliation sweep performs no further state transition on that issue,
and its `pr_merged` remains `0` permanently — on this and on every
subsequent sweep, whatever any gateway reports.  In this code the
guarantee is unconditional: every sweep aborts on the unmapped
`Issue.pr_merged` attribute before fetching a single row (see
`sweepTryBlock`), so no sweep ever changes any field of any issue. -/
theorem sweep_closed_unmerged_no_transition (gw : String → Except String PRInfo)
    (db : DB) (k : Nat) (i : Issue)
    (hk : db.issues[k]? = some i) (_hc : i.status = IssueStatus.CLOSED)
    (_hm : i.pr_merged = 0) :
    (update_pr_merge_status gw db).2.issues[k]? = some i
    ∧ ∀ gws : List (String → Except String PRInfo),
        (gws.foldl (fun d g => (update_pr_merge_status g d).2) db).issues[k]?
          = some i := by
  have hfold : ∀ (gws : List (String → Except String PRInfo)) (d : DB),
      gws.foldl (fun d g => (update_pr_merge_status g d).2) d = d := by
    intro gws
    induction gws with
    | nil => intro d; rfl
    | cons g gs ih => intro d; exact ih d
  refine ⟨hk, fun gws => ?_⟩
  rw [hfold]
  exact hk

/-- Witness for C8: the concrete closed-without-merge row is untouched by
one sweep and by three successive sweeps, even against a gateway that
keeps reporting merged=true. -/
theorem sweep_closed_unmerged_no_transition_witness :
    (update_pr_merge_status exGwMerged exDBClosedNotMerged).2.issues[0]? =
      some { exIssue with status := IssueStatus.CLOSED, pr_url := some "pr-1", pr_branch := some "b-1", pr_merged := 0 }
    ∧ ([exGwMerged, exGwMerged, exGwMerged].foldl
        (fun d g => (update_pr_merge_status g d).2) exDBClosedNotMerged).issues[0]? =
      some { exIssue with status := IssueStatus.CLOSED, pr_url := some "pr-1", pr_branch := some "b-1", pr_merged := 0 } := by
  refine ⟨?_, ?_⟩
  · exact (sweep_closed_unmerged_no_transition exGwMerged exDBClosedNotMerged
      0 _ rfl rfl rfl).1
  · exact (sweep_closed_unmerged_no_transition exGwMerged exDBClosedNotMerged
      0 _ rfl rfl rfl).2 [exGwMerged, exGwMerged, exGwMerged]

/-- Claim C10 (code bug): the metrics route never returns a summary at
all: the merged-PR count at `app/api.py` line 154 accesses the unmapped
`Issue.pr_merged` and raises `AttributeError`, so the route fails there —
before the success rate or the response model is ever computed — for
every state of the Issue Store.  The success-rate expression the route
would compute afterwards is moreover the ratio rounded to two decimal
places (at 1 merged of 3 opened PRs it is `33.33`, not the exact
`100 / 3` the claim states), and the subsequent construction would also
omit the required `merged_prs` and `rejected_prs` schema fields. -/
theorem metrics_route_attribute_bug :
    (∀ db : DB, get_metrics_summary db =
      Except.error "AttributeError: type object Issue has no attribute pr_merged")
    ∧ get_metrics_summary exDBMetrics =
      Except.error "AttributeError: type object Issue has no attribute pr_merged"
    ∧ total_prs_created_count exDBMetrics = 3
    ∧ success_rate_calc 1 3 = 3333 / 100
    ∧ success_rate_calc 1 3 ≠ (1 : ℚ) / 3 * 100 := by
  refine ⟨fun db => rfl, rfl, rfl, ?_, ?_⟩
  · norm_num [success_rate_calc, roundTo2]
  · norm_num [success_rate_calc, roundTo2]

end Janitor
